import Mathlib

/-!
Verification development for the proactive engagement and reminder-scheduling
engine of the zupkiAI backend.  Python sources embedded here:

* helpers.py                  — time-window predicates, calculate_weights,
                                is_list_reminders_request, format_reminder_list,
                                the fixed category/subcategory taxonomy;
* endpoints/chat.py           — proactive_talk, the engagement decision engine;
* endpoints/medicinereminder.py — get_reminder_dates and the start/end date
                                determination of add_medicine_reminder;
* endpoints/reminders.py      — get_medication_adherence_summary.

Modelling conventions: Python dictionaries keyed by strings become ordered
association lists (first binding wins on lookup, as in the source, where keys
are unique); calendar dates become day numbers (Nat) under a fixed epoch such
that the weekday of day number d is (d + 2) % 7 with Monday = 0, matching the
weekday numbering of the source; Python floats become rationals; code that can
raise returns Except.  External collaborators (the text-generation service and
the process random source) are passed in as explicit parameters.
-/

set_option maxRecDepth 10000

namespace Zupki

/-! ## String primitives

The following char-list implementations of familiar string operations are
used instead of the library versions so that every definition reduces inside
the kernel; each mirrors the behaviour of the corresponding Python operation
on the inputs the embedded code feeds it. -/

/-- Split a character list at every occurrence of a separator character,
matching the semantics of the Python str.split method with a one-character
separator (an empty input gives one empty field). -/
def splitListOnChar (sep : Char) : List Char → List (List Char)
  | [] => [[]]
  | c :: cs =>
    let r := splitListOnChar sep cs
    if c = sep then [] :: r
    else
      match r with
      | [] => [[c]]
      | h :: t => (c :: h) :: t

/-- String wrapper of splitListOnChar. -/
def splitOnChar (sep : Char) (s : String) : List String :=
  (splitListOnChar sep s.data).map (fun l => ⟨l⟩)

/-- Read a non-empty all-digit character list as a natural number, the
successful case of the Python int constructor on the strings the embedded
code parses. -/
def digitsToNat? (cs : List Char) : Option Nat :=
  if cs.isEmpty then none
  else if cs.all Char.isDigit then
    some (cs.foldl (fun n c => n * 10 + (c.toNat - 48)) 0)
  else none

/-- String wrapper of digitsToNat?. -/
def strToNat? (s : String) : Option Nat := digitsToNat? s.data

/-- Lowercase every character, as the Python str.lower method does for the
ASCII tags the embedded code lowercases. -/
def strLower (s : String) : String := ⟨s.data.map Char.toLower⟩

/-- First n characters, the Python slice s[:n]. -/
def strTake (s : String) (n : Nat) : String := ⟨s.data.take n⟩

/-- Drop the first n characters, the Python slice s[n:]. -/
def strDrop (s : String) (n : Nat) : String := ⟨s.data.drop n⟩

/-- Emptiness of a string, the negation of Python string truthiness. -/
def strIsEmpty (s : String) : Bool := s.data.isEmpty

/-- Membership of a character, the Python expression c in s. -/
def strContainsChar (s : String) (c : Char) : Bool := s.data.contains c

/-- Truthiness of the Python expression s.strip(): the string contains at
least one non-whitespace character. -/
def pyStripTruthy (s : String) : Bool := s.data.any (fun ch => !ch.isWhitespace)

/-- Lookup in an association list, returning the first binding, mirroring the
behaviour of a Python dict get. -/
def dictGet {α : Type} : List (String × α) → String → Option α
  | [], _ => none
  | (k2, v) :: rest, k => if k2 = k then some v else dictGet rest k

/-- Update or insert a binding, mirroring a Python dict item assignment:
the first existing binding for the key is replaced in place, otherwise the
binding is appended. -/
def dictSet {α : Type} : List (String × α) → String → α → List (String × α)
  | [], k, v => [(k, v)]
  | (k2, v2) :: rest, k, v =>
    if k2 = k then (k, v) :: rest else (k2, v2) :: dictSet rest k v

theorem dictGet_dictSet {α : Type} (m : List (String × α)) (k j : String) (v : α) :
    dictGet (dictSet m k v) j = if j = k then some v else dictGet m j := by
  induction m with
  | nil =>
    by_cases h : j = k
    · simp [dictSet, dictGet, h]
    · have h2 : ¬ k = j := Ne.symm h
      simp [dictSet, dictGet, h, h2]
  | cons p rest ih =>
    obtain ⟨k2, v2⟩ := p
    by_cases hk : k2 = k
    · subst hk
      by_cases hj : j = k2
      · subst hj
        simp [dictSet, dictGet]
      · have h2 : ¬ k2 = j := Ne.symm hj
        simp [dictSet, dictGet, hj, h2]
    · by_cases hj : j = k2
      · subst hj
        simp [dictSet, dictGet, hk, Ne.symm hk]
      · have h2 : ¬ k2 = j := Ne.symm hj
        simp [dictSet, dictGet, hk, h2, ih]

theorem dictGet_mem_values {α : Type} (m : List (String × α)) (k : String) (v : α)
    (h : dictGet m k = some v) : v ∈ m.map Prod.snd := by
  induction m with
  | nil => simp [dictGet] at h
  | cons p rest ih =>
    obtain ⟨k2, v2⟩ := p
    by_cases hk : k2 = k
    · simp [dictGet, hk] at h
      simp [h]
    · simp [dictGet, hk] at h
      simpa using Or.inr (ih h)

/-- Truthiness of an optional string in Python: present and non-empty. -/
def truthyOptStr : Option String → Bool
  | some v => !strIsEmpty v
  | none => false

/-! ## Calendar model

Dates are day numbers under a fixed epoch (0000-03-01 of the proleptic
Gregorian calendar), computed by the standard civil-calendar conversion.
Under this epoch the weekday of day number d is (d + 2) % 7 with Monday = 0,
the numbering used by Python date.weekday(). -/

/-- Day number of a Gregorian civil date (year, month, day), days since
0000-03-01; standard era/year-of-era computation, valid for year at least 1. -/
def daysFromCivil (y m d : Nat) : Nat :=
  let y2 := if m ≤ 2 then y - 1 else y
  let era := y2 / 400
  let yoe := y2 % 400
  let mp := (m + 9) % 12
  let doy := (153 * mp + 2) / 5 + d - 1
  let doe := yoe * 365 + yoe / 4 - yoe / 100 + doy
  era * 146097 + doe

/-- Weekday index of a day number, Monday = 0 through Sunday = 6, the same
numbering as Python date.weekday(). -/
def weekday (d : Nat) : Nat := (d + 2) % 7

/-- Model of datetime.date.fromisoformat applied to the date part of an ISO
string: the text before any letter T is split on dashes and read as
year-month-day; a malformed or out-of-range field yields none.  The fromisoformat
call of the source raises on malformed input; callers of this model decide
locally what the corresponding except-branch does. -/
def parseDateIso (s : String) : Option Nat :=
  let datePart := (splitOnChar 'T' s).headD s
  match splitOnChar '-' datePart with
  | [y, m, d] =>
    match strToNat? y, strToNat? m, strToNat? d with
    | some yy, some mm, some dd =>
      if 1 ≤ mm ∧ mm ≤ 12 ∧ 1 ≤ dd ∧ dd ≤ 31 then some (daysFromCivil yy mm dd)
      else none
    | _, _, _ => none
  | _ => none

/-- Extract the clock value (hour, minute) of a reminder time string: an ISO
timestamp (detected by a letter T, hour and minute read from the text after it)
or a bare HH:MM value; none models the parse failure caught by the source. -/
def parseClock (s : String) : Option (Nat × Nat) :=
  if strContainsChar s 'T' then
    match (splitOnChar 'T' s).get? 1 with
    | none => none
    | some rest =>
      match strToNat? (strTake rest 2), strToNat? (strTake (strDrop rest 3) 2) with
      | some h, some m => some (h, m)
      | _, _ => none
  else
    match splitOnChar ':' s with
    | [h, m] =>
      match strToNat? h, strToNat? m with
      | some hh, some mm => some (hh, mm)
      | _, _ => none
    | _ => none

/-- The clock components of the current moment that the engine reads, plus the
current calendar date in the two forms the source derives from it (the ISO
string used for asked-state stamps and the day number used for date
arithmetic).  A well-formed value has dateIso and dateNum describing the same
date and iso carrying the full timestamp. -/
structure Time where
  hour : Nat
  minute : Nat
  dateIso : String
  dateNum : Nat
  iso : String
deriving DecidableEq, Repr

/-- Embeds helpers.is_within_one_hour: true when the reminder clock value and
the current clock value are at most threshold minutes apart on a 0..1439
minute-of-day scale; false on empty or unparseable input. -/
def is_within_one_hour (reminder_time : String) (now : Time) (threshold_minutes : Nat) : Bool :=
  if strIsEmpty reminder_time then false
  else
    match parseClock reminder_time with
    | none => false
    | some (rh, rm) =>
      let reminder_minutes : Int := rh * 60 + rm
      let current_minutes : Int := now.hour * 60 + now.minute
      decide ((reminder_minutes - current_minutes).natAbs ≤ threshold_minutes)

/-- Embeds helpers.is_exact_reminder_time: the same comparison as
is_within_one_hour with a 1-minute threshold. -/
def is_exact_reminder_time (reminder_time : String) (now : Time) (threshold_minutes : Nat) : Bool :=
  if strIsEmpty reminder_time then false
  else
    match parseClock reminder_time with
    | none => false
    | some (rh, rm) =>
      let reminder_minutes : Int := rh * 60 + rm
      let current_minutes : Int := now.hour * 60 + now.minute
      decide ((reminder_minutes - current_minutes).natAbs ≤ threshold_minutes)

/-- Embeds helpers.is_after_reminder_time: current minute-of-day strictly
greater than the reminder minute-of-day; false on empty or unparseable input. -/
def is_after_reminder_time (reminder_time : String) (now : Time) : Bool :=
  if strIsEmpty reminder_time then false
  else
    match parseClock reminder_time with
    | none => false
    | some (rh, rm) =>
      let reminder_minutes : Int := rh * 60 + rm
      let current_minutes : Int := now.hour * 60 + now.minute
      decide (current_minutes > reminder_minutes)

/-- Embeds helpers.is_refill_date_near: the refill date is between zero and
threshold_days days after the current date; false on empty or unparseable
input. -/
def is_refill_date_near (refill_date : String) (currentDate : Nat) (threshold_days : Nat) : Bool :=
  if strIsEmpty refill_date then false
  else
    match parseDateIso refill_date with
    | none => false
    | some refill =>
      let delta : Int := (refill : Int) - (currentDate : Int)
      decide (0 ≤ delta ∧ delta ≤ (threshold_days : Int))

/-! ## UsageWeighter: helpers.calculate_weights -/

/-- Embeds helpers.calculate_weights.  With natural-number usage counts the
only exception reachable inside the try block of the source is the zero
division that occurs when the mapping is non-empty and every stored count is
zero (max_count = 0); the except branch then returns the uniform list of the
default weight, modelled by the first branch below. -/
def calculate_weights (items : List String) (usage_counts : List (String × Nat))
    (default_weight : ℚ) : List ℚ :=
  let max_count : Nat :=
    if usage_counts.isEmpty then 1 else (usage_counts.map Prod.snd).foldl max 0
  if max_count = 0 then items.map (fun _ => default_weight)
  else
    items.map (fun item =>
      let count : Nat := (dictGet usage_counts item).getD 0
      default_weight / (1 + (count : ℚ) / (max_count : ℚ)))

/-! ## ReminderExpander: medicinereminder.get_reminder_dates -/

/-- The weekday tag table of get_reminder_dates. -/
def weekday_map : List (String × Nat) :=
  [("mon", 0), ("tue", 1), ("wed", 2), ("thu", 3), ("fri", 4), ("sat", 5), ("sun", 6)]

/-- Every calendar day from start_date to end_date inclusive (empty when
end_date precedes start_date), the range walked by the while loop of
get_reminder_dates. -/
def rangeDates (start_date end_date : Nat) : List Nat :=
  (List.range (end_date + 1 - start_date)).map (fun i => start_date + i)

/-- Embeds get_reminder_dates of endpoints/medicinereminder.py: empty
recurrence yields the start date alone; otherwise each tag is shortened to its
first three letters, lowercased and looked up in the weekday table; no
recognized tag falls back to the start date; otherwise the inclusive range is
filtered by weekday, and the final line of the source falls back to the start
date once more when that filter is empty. -/
def get_reminder_dates (recurring : List String) (start_date end_date : Nat) : List Nat :=
  if recurring.isEmpty then [start_date]
  else
    let weekdays_idx := recurring.filterMap (fun d => dictGet weekday_map (strLower (strTake d 3)))
    if weekdays_idx.isEmpty then [start_date]
    else
      let dates := (rangeDates start_date end_date).filter (fun dt => weekdays_idx.contains (weekday dt))
      if dates.isEmpty then [start_date] else dates

/-! ## Reminder creation: add_medicine_reminder start and end date determination -/

/-- The fields of the MedicineReminder request model that the date
determination and expansion of add_medicine_reminder read.  Optional Python
fields become Option; an absent recurring list and an absent or false
start_from_today flag are falsy in the source, modelled by the empty list and
false respectively. -/
structure MedicineReminderReq where
  medicine_name : String
  time : Option String
  reminder_date : Option String
  end_date : Option String
  set_refill_date : Option String
  reminder_id : Option String
  recurring : List String
  start_from_today : Bool
deriving DecidableEq, Repr

/-- Embeds the start-date determination of add_medicine_reminder: the default
is the current date; an explicit start_from_today flag keeps the current date;
otherwise a truthy reminder_date is parsed (a parse failure is an HTTP 400
rejection, the error case); when neither is supplied the default current date
is kept silently. -/
def determine_start_date (current_date : Nat) (r : MedicineReminderReq) : Except String Nat :=
  if r.start_from_today then Except.ok current_date
  else
    match r.reminder_date with
    | some s =>
      if strIsEmpty s then Except.ok current_date
      else
        match parseDateIso s with
        | some d => Except.ok d
        | none => Except.error "Invalid reminder_date format"
    | none => Except.ok current_date

/-- Embeds the end-date determination of add_medicine_reminder: the default is
the start date plus four weeks; a truthy end_date is parsed, with a parse
failure rejected as HTTP 400. -/
def determine_end_date (start_date : Nat) (r : MedicineReminderReq) : Except String Nat :=
  match r.end_date with
  | some s =>
    if strIsEmpty s then Except.ok (start_date + 28)
    else
      match parseDateIso s with
      | some d => Except.ok d
      | none => Except.error "Invalid end_date format"
  | none => Except.ok (start_date + 28)

/-- The occurrence dates that add_medicine_reminder persists for one reminder
spec: start date, then end date, then get_reminder_dates; one store record is
written per returned date.  An error models the HTTP 400 rejection, in which
case nothing is persisted for this reminder. -/
def add_reminder_occurrence_dates (current_date : Nat) (r : MedicineReminderReq) :
    Except String (List Nat) :=
  match determine_start_date current_date r with
  | Except.error e => Except.error e
  | Except.ok s =>
    match determine_end_date s r with
    | Except.error e => Except.error e
    | Except.ok e => Except.ok (get_reminder_dates r.recurring s e)

/-! ## AdherenceAggregator: reminders.get_medication_adherence_summary -/

/-- One entry of a medicine response log; the source reads the timestamp and
response keys with get, so both are optional. -/
structure RespEntry where
  timestamp : Option String
  response : Option String
deriving DecidableEq, Repr

/-- The reminder fields that the adherence aggregation reads. -/
structure AdhReminder where
  time : Option String
  medicine_name : Option String
deriving DecidableEq, Repr

/-- The output record of the adherence summary (the numeric counters are also
exposed, mirroring the local variables of the source that determine the
returned fields). -/
structure AdherenceSummary where
  all_taken_today : Bool
  missed_doses : Nat
  taken_count : Nat
  total_last7 : Nat
  adherence_rate : ℚ
  next_dose : Option String
deriving DecidableEq, Repr

/-- Round-half-to-even of a rational to an integer, the rounding used by the
Python round builtin. -/
def roundHalfEven (q : ℚ) : ℤ :=
  let f := ⌊q⌋
  let r := q - (f : ℚ)
  if r < 1 / 2 then f
  else if 1 / 2 < r then f + 1
  else if f % 2 = 0 then f else f + 1

/-- Model of round(x, 2). -/
def round2 (q : ℚ) : ℚ := (roundHalfEven (q * 100) : ℚ) / 100

/-- The accumulator of the reminder loop of get_medication_adherence_summary. -/
structure AdhAcc where
  all_taken_today : Bool
  missed_doses : Nat
  total : Nat
  taken : Nat
  next_dose : Option String
deriving DecidableEq, Repr

/-- The inner response loop of get_medication_adherence_summary, threading the
global 7-day total and taken counters and the per-reminder taken_today flag:
an entry with truthy timestamp and response whose timestamp parses adds to the
7-day total when zero to six days old, to the taken counter when additionally
the response is yes, and marks taken_today on a yes response dated today;
entries that fail the truthiness test or the parse are skipped. -/
def adherenceEntryStep (today : Nat) (st : Nat × Nat × Bool) (r : RespEntry) : Nat × Nat × Bool :=
  match r.timestamp, r.response with
  | some ts, some resp =>
    if strIsEmpty ts ∨ strIsEmpty resp then st
    else
      match parseDateIso ts with
      | some d =>
        let diff : Int := (today : Int) - (d : Int)
        let total := if 0 ≤ diff ∧ diff < 7 then st.1 + 1 else st.1
        let taken := if (0 ≤ diff ∧ diff < 7) ∧ resp = "yes" then st.2.1 + 1 else st.2.1
        let tt := st.2.2 || (decide (d = today) && decide (resp = "yes"))
        (total, taken, tt)
      | none => st
  | _, _ => st

/-- The body of the reminder loop of get_medication_adherence_summary. -/
def adherenceReminderStep (responses : List (String × List RespEntry)) (today : Nat)
    (acc : AdhAcc) (p : String × AdhReminder) : AdhAcc :=
  let reminder_time := p.2.time.getD ""
  let medicine_name := p.2.medicine_name.getD "Unknown"
  let response_list := (dictGet responses p.1).getD []
  let st := response_list.foldl (adherenceEntryStep today) (acc.total, acc.taken, false)
  let acc1 : AdhAcc := { acc with total := st.1, taken := st.2.1 }
  let acc2 : AdhAcc :=
    if !st.2.2 then
      { acc1 with all_taken_today := false, missed_doses := acc1.missed_doses + 1 }
    else acc1
  let label := reminder_time ++ " - " ++ medicine_name
  let nd :=
    match acc2.next_dose with
    | none => some label
    | some prev => if reminder_time < prev then some label else some prev
  { acc2 with next_dose := nd }

/-- Embeds get_medication_adherence_summary of endpoints/reminders.py, after
the reminder set has been brought to its id-keyed mapping form (the source
converts a list-shaped set by positional index first).  The computation is a
pure read of the reminder set and the response log: it performs no store write
and returns only the summary record. -/
def get_medication_adherence_summary (reminders : List (String × AdhReminder))
    (responses : List (String × List RespEntry)) (today : Nat) : AdherenceSummary :=
  let acc := reminders.foldl (adherenceReminderStep responses today)
    ⟨true, 0, 0, 0, none⟩
  let rate : ℚ :=
    if acc.total ≠ 0 then round2 ((acc.taken : ℚ) / (acc.total : ℚ) * 100) else 0
  ⟨acc.all_taken_today, acc.missed_doses, acc.taken, acc.total, rate, acc.next_dose⟩

/-! ## EngagementDecisionEngine: chat.proactive_talk

The engine is embedded as a pure function from the state read at the start of
the call (user profile name, reminder list, voice-history blob, important
question entries), the optional reply text and the current time, to the
response and the ordered list of store writes the call performs.  External
collaborators are a Collab record: the two text-generation calls become
Except values (error models a raised exception or timeout) and the two
random.choices calls become index-choosing functions receiving exactly the
candidate list and weight list the source passes. -/

/-- The reminder fields that proactive_talk reads. -/
structure Reminder where
  medicine_name : Option String
  time : Option String
  reminder_id : Option String
  set_refill_date : Option String
deriving DecidableEq, Repr

/-- Per-reminder asked-state bookkeeping; a missing key of the stored dict is
read through get with falsy defaults, modelled by emptyAsked. -/
structure AskedState where
  within_hour_asked : Bool
  post_reminder_asked : Bool
  refill_asked : Bool
  date : Option String
deriving DecidableEq, Repr

/-- The falsy reads of an absent asked-state entry. -/
def emptyAsked : AskedState := ⟨false, false, false, none⟩

/-- One conversation-log entry.  The dict key named type in the source is the
field turn_type here; keys absent from a stored dict are read with falsy
defaults, so plain user and response turns carry false and none in the last
three fields. -/
structure Turn where
  role : String
  content : String
  timestamp : String
  turn_type : String
  is_category_question : Bool
  category : Option String
  subcategory : Option String
deriving DecidableEq, Repr

/-- The voice-history blob persisted at users/uid/voice_history. -/
structure VoiceData where
  history : List Turn
  asked_reminders : List (String × AskedState)
  category_usage : List (String × Nat)
  subcategory_usage : List (String × Nat)
deriving DecidableEq, Repr

/-- One entry of the important-question store. -/
structure ImpEntry where
  question : String
  reply : String
  question_timestamp : String
  reply_timestamp : String
deriving DecidableEq, Repr

/-- One write to the document store performed during a proactive_talk call:
either the voice-history blob or the important-question entry list. -/
inductive StoreWrite where
  | voice : VoiceData → StoreWrite
  | imp : List ImpEntry → StoreWrite
deriving DecidableEq, Repr

deriving instance DecidableEq for Except

/-- Outcome of one proactive_talk call: the HTTP-level result (ok response
text, or error detail when the endpoint raises) and the ordered store writes
performed before returning. -/
structure TalkResult where
  result : Except String String
  writes : List StoreWrite
deriving DecidableEq, Repr

/-- External collaborators of the engine: the direct-reply and
category-question text generations (error models a raised exception), the two
random.choices index selections, and the process string hash used for the
fallback reminder id. -/
structure Collab where
  reply_gen : Except Unit String
  question_gen : Except Unit String
  pick_category : List String → List ℚ → Nat
  pick_subcategory : List String → List ℚ → Nat
  str_hash : String → String

/-- The constant MAX_MESSAGE_LENGTH of helpers.py. -/
def MAX_MESSAGE_LENGTH : Nat := 1000

/-- The constant MAX_HISTORY_LENGTH of helpers.py. -/
def MAX_HISTORY_LENGTH : Nat := 50

/-- The truncation applied after each append: when the log exceeds
MAX_HISTORY_LENGTH entries, keep the most recent MAX_HISTORY_LENGTH. -/
def truncateHistory (h : List Turn) : List Turn :=
  if h.length > MAX_HISTORY_LENGTH then h.drop (h.length - MAX_HISTORY_LENGTH) else h

/-- The fixed category taxonomy CATEGORIES_WITH_SUBCATEGORIES of helpers.py,
in its insertion order. -/
def CATEGORIES_WITH_SUBCATEGORIES : List (String × List String) :=
  [ ("Health and Medicine",
      ["Medication intake", "Doctor appointment reminders", "Symptoms or discomfort",
       "Chronic illness check-in"]),
    ("Emotional State and Well-being",
      ["Mood tracking", "Stress or anxiety check", "Loneliness check",
       "Positive reinforcement"]),
    ("Companion and Social Interaction",
      ["Family interactions", "Friendship talk", "Daily social activity",
       "Memory sharing with loved ones"]),
    ("Reminders Questions",
      ["Medication reminders", "Hydration check", "Meal time check",
       "Appointment reminders"]),
    ("Practical Support and Request",
      ["Help with devices", "Need groceries or essentials", "Household tasks",
       "Emergency check"]),
    ("Health Motion",
      ["Exercise tracking", "Walking reminders", "Mobility check",
       "Stretching or movement prompts"]),
    ("Best Caring",
      ["Comfort level", "Care quality feedback", "Suggestions for better care",
       "Is anything bothering you?"]),
    ("Current Time Based Questions (e.g., morning, evening, night)",
      ["Morning greetings and check-in", "Evening mood and activities",
       "Night sleep preparation", "Time-specific medicine check"]),
    ("Memory and Life Reflection",
      ["Childhood memories", "Career achievements", "Important life lessons",
       "Family stories"]),
    ("Daily Routine Check-ins",
      ["Wake-up time", "Meals taken", "Activities done", "Nap or rest"]),
    ("Nutrition and Meal-related",
      ["Breakfast/lunch/dinner check", "Diet preferences", "Did you enjoy your meal?",
       "Water intake"]),
    ("Sleep and Rest",
      ["Sleep quality", "Nap check", "Bedtime routine", "Any sleep difficulties"]),
    ("Mental Stimulation and Cognitive Exercises",
      ["Memory games", "Trivia or puzzles", "Storytelling prompts",
       "What day is it today?"]),
    ("Safety and Security Concerns",
      ["Door locked check", "Feeling safe?", "Stranger alert",
       "Emergency preparedness"]),
    ("Festivals and Cultural Engagement",
      ["Festival greetings", "Special traditions", "Religious practices",
       "Celebration plans"]),
    ("Weather-related Questions",
      ["Weather comfort check", "Dress suggestions", "Outdoor plan suitability",
       "Cold/heat-related discomfort"]),
    ("Motivational and Encouraging Conversations",
      ["Words of encouragement", "Proud of you messages", "Goal setting",
       "Daily affirmations"]),
    ("Celebration and Special Days",
      ["Birthday wishes", "Anniversary reminders", "Milestones celebration",
       "Family event questions"]),
    ("Spiritual and Faith-based Reflections",
      ["Prayer time", "Faith talk", "Spiritual comfort check",
       "Religious holiday wishes"]),
    ("Entertainment and Leisure Activities",
      ["TV/music preference", "Movie recommendations", "Hobby discussion",
       "Crafts or games ideas"]),
    ("Technology Help or Guidance",
      ["Phone help", "Video call assistance", "Settings guidance",
       "Online safety tips"]),
    ("Personal Hygiene and Grooming",
      ["Bathing check", "Brushing teeth", "Hair grooming", "Clothing comfort"]),
    ("Pain or Discomfort Tracking",
      ["Pain scale rating", "Body part check", "Relief methods",
       "Medical follow-up needs"]),
    ("Exercise and Physical Activity Encouragement",
      ["Stretch prompt", "Breathing exercises", "Balance check",
       "Short walk suggestion"]),
    ("Custom Questions based on User Preferences or Habits",
      ["Favorite routine check", "User-defined goals", "Unique memory triggers",
       "Personal hobbies"]) ]

/-- The category key list, in insertion order. -/
def categoryKeys : List String := CATEGORIES_WITH_SUBCATEGORIES.map Prod.fst

/-- Prefix test on lists, used by the substring model below. -/
def listStartsWith {α : Type} [DecidableEq α] : List α → List α → Bool
  | _, [] => true
  | [], _ :: _ => false
  | c :: cs, d :: ds => decide (c = d) && listStartsWith cs ds

/-- Occurrence of a pattern list inside a list, the Python expression
pat in s on strings (true for the empty pattern, as in Python). -/
def listHasSub {α : Type} [DecidableEq α] (pat : List α) : List α → Bool
  | [] => listStartsWith ([] : List α) pat
  | c :: cs => listStartsWith (c :: cs) pat || listHasSub pat cs

/-- String wrapper of listHasSub. -/
def strContainsSub (s pat : String) : Bool := listHasSub pat.data s.data

/-- Embeds helpers.is_list_reminders_request: lowercase substring match
against the fixed phrase set. -/
def is_list_reminders_request (reply : String) : Bool :=
  if strIsEmpty reply then false
  else
    let reply_lower := strLower reply
    ["list all reminders", "show my reminders", "what are my reminders",
     "medicine schedule", "reminder list", "all medicine times"].any
      (fun keyword => strContainsSub reply_lower keyword)

/-- Two-digit zero-padded rendering of a clock component. -/
def pad2 (n : Nat) : String := if n < 10 then "0" ++ toString n else toString n

/-- Embeds helpers.format_reminder_list: one line per dict-shaped reminder
with its name, clock value and refill date.  The strftime renderings of parsed
ISO timestamps are modelled from the parsed values (HH:MM via the clock parse;
the date part of the refill string, which is what strftime produces on a
well-formed ISO input). -/
def format_reminder_list (medicine_reminders : List Reminder) : String :=
  if medicine_reminders.isEmpty then "You have no medicine reminders set."
  else
    medicine_reminders.foldl (fun acc (r : Reminder) =>
      let med_name := r.medicine_name.getD "Unknown"
      let time0 := r.time.getD "No time set"
      let time :=
        if strContainsChar time0 'T' then
          match parseClock time0 with
          | some (h, m) => pad2 h ++ ":" ++ pad2 m
          | none => "Invalid time format"
        else time0
      let refill0 := r.set_refill_date.getD "No refill date set"
      let refill :=
        if strContainsChar refill0 'T' then
          match parseDateIso refill0 with
          | some _ => (splitOnChar 'T' refill0).headD refill0
          | none => "Invalid refill date"
        else refill0
      acc ++ "- " ++ med_name ++ " at " ++ time ++ ", Refill due: " ++ refill ++ "\n")
      "Here are your medicine reminders:\n"

/-- The reminder id used for asked-state bookkeeping: the stored reminder_id
when the key is present, else the stringified process hash of the
concatenated name and time, exactly as the source computes it. -/
def reminderIdOf (c : Collab) (r : Reminder) : String :=
  r.reminder_id.getD (c.str_hash (r.medicine_name.getD "" ++ r.time.getD ""))

/-- Reads the asked-state entry of a reminder id with falsy defaults for a
missing entry. -/
def askedEntry (asked : List (String × AskedState)) (rid : String) : AskedState :=
  (dictGet asked rid).getD emptyAsked

/-- The asked-state mutation of the exact medication question: keep the other
flags of the existing entry, set within_hour_asked and stamp the date. -/
def mark_within_hour (asked : List (String × AskedState)) (rid date : String) :
    List (String × AskedState) :=
  dictSet asked rid { askedEntry asked rid with within_hour_asked := true, date := some date }

/-- The asked-state mutation of the post-reminder question. -/
def mark_post_reminder (asked : List (String × AskedState)) (rid date : String) :
    List (String × AskedState) :=
  dictSet asked rid { askedEntry asked rid with post_reminder_asked := true, date := some date }

/-- The asked-state mutation of the refill question. -/
def mark_refill (asked : List (String × AskedState)) (rid date : String) :
    List (String × AskedState) :=
  dictSet asked rid { askedEntry asked rid with refill_asked := true, date := some date }

/-- The exact medication question text of the source. -/
def medication_due_question (user_name : String) (r : Reminder) : String :=
  "Hey " ++ user_name ++ ", it\u2019s time for your " ++ r.medicine_name.getD "medication" ++
    ". Have you taken it yet?"

/-- The post-reminder question text of the source. -/
def post_reminder_question (user_name : String) (r : Reminder) : String :=
  "Hi " ++ user_name ++ ", did you take your " ++ r.medicine_name.getD "medication" ++
    " earlier today at " ++ r.time.getD "" ++ "?"

/-- The refill question text of the source. -/
def refill_due_question (user_name : String) (r : Reminder) : String :=
  "Hey " ++ user_name ++ ", your " ++ r.medicine_name.getD "medication" ++
    " is due for a refill soon. Have you planned to get it refilled?"

/-- Embeds the medication-due loop of proactive_talk (step 2 of the decision
order).  Reminders without a truthy time are skipped.  The local asked_today
of the source is bound here as _asked_today: the source computes it and never
reads it — the three suppression tests below consult only the bare flags, not
the stored date.  A reminder inside the one-hour window with the within-hour
flag clear is asked about only on an exact minute match, in which case the
scan stops and the flag is set; a non-exact window match falls through to the
next reminder; otherwise a reminder whose time has passed with the
post-reminder flag clear stops the scan with the post-reminder question. -/
def medication_scan (c : Collab) (user_name : String) (now : Time) :
    List Reminder → List (String × AskedState) → Option String × List (String × AskedState)
  | [], asked => (none, asked)
  | r :: rest, asked =>
    if !truthyOptStr r.time then medication_scan c user_name now rest asked
    else
      let rid := reminderIdOf c r
      let reminder_time := r.time.getD ""
      let entry := askedEntry asked rid
      let _asked_today := decide (entry.date = some now.dateIso)
      if is_within_one_hour reminder_time now 60 && !entry.within_hour_asked then
        if is_exact_reminder_time reminder_time now 1 then
          (some (medication_due_question user_name r), mark_within_hour asked rid now.dateIso)
        else medication_scan c user_name now rest asked
      else if is_after_reminder_time reminder_time now && !entry.post_reminder_asked then
        (some (post_reminder_question user_name r), mark_post_reminder asked rid now.dateIso)
      else medication_scan c user_name now rest asked

/-- Embeds the refill loop of proactive_talk (step 3): reminders without a
truthy refill date are skipped; a refill due within three days with the
refill flag clear stops the scan with the refill question and sets the
flag. -/
def refill_scan (c : Collab) (user_name : String) (now : Time) :
    List Reminder → List (String × AskedState) → Option String × List (String × AskedState)
  | [], asked => (none, asked)
  | r :: rest, asked =>
    if !truthyOptStr r.set_refill_date then refill_scan c user_name now rest asked
    else
      let rid := reminderIdOf c r
      let entry := askedEntry asked rid
      if is_refill_date_near (r.set_refill_date.getD "") now.dateNum 3 && !entry.refill_asked then
        (some (refill_due_question user_name r), mark_refill asked rid now.dateIso)
      else refill_scan c user_name now rest asked

/-- The outcome of the category-selection step: the chosen labels and the
usage counters incremented at decision time. -/
structure CategoryChoice where
  category : String
  subcategory : String
  category_usage : List (String × Nat)
  subcategory_usage : List (String × Nat)
deriving Repr

/-- Embeds the category-question selection of proactive_talk (step 5):
weighted choice of a category over the fixed key list, weighted choice of a
subcategory within the chosen category, and immediate increment of both
usage counters. -/
def category_select (c : Collab) (category_usage subcategory_usage : List (String × Nat)) :
    CategoryChoice :=
  let categories := categoryKeys
  let category_weights := calculate_weights categories category_usage 1
  let selected_category := categories.getD (c.pick_category categories category_weights) ""
  let subcategories := (dictGet CATEGORIES_WITH_SUBCATEGORIES selected_category).getD []
  let subcategory_weights := calculate_weights subcategories subcategory_usage 1
  let selected_subcategory :=
    subcategories.getD (c.pick_subcategory subcategories subcategory_weights) ""
  let cu := dictSet category_usage selected_category
    ((dictGet category_usage selected_category).getD 0 + 1)
  let su := dictSet subcategory_usage selected_subcategory
    ((dictGet subcategory_usage selected_subcategory).getD 0 + 1)
  ⟨selected_category, selected_subcategory, cu, su⟩

/-- Embeds the common persistence tail of proactive_talk (source lines between
the decision and the return): first write the blob with the decision
bookkeeping and the pre-turn history, then append the assistant turn, truncate,
and write the blob again. -/
def finish_decision (history : List Turn) (asked : List (String × AskedState))
    (category_usage subcategory_usage : List (String × Nat))
    (response_content response_key : String) (is_category_question : Bool)
    (selected_category selected_subcategory : Option String) (now : Time)
    (prior_writes : List StoreWrite) : TalkResult :=
  let vd1 : VoiceData := ⟨history, asked, category_usage, subcategory_usage⟩
  let turn : Turn :=
    ⟨"assistant", response_content, now.iso, response_key, is_category_question,
      (if is_category_question then selected_category else none),
      (if is_category_question then selected_subcategory else none)⟩
  let history2 := truncateHistory (history ++ [turn])
  let vd2 : VoiceData := ⟨history2, asked, category_usage, subcategory_usage⟩
  ⟨Except.ok response_content, prior_writes ++ [StoreWrite.voice vd1, StoreWrite.voice vd2]⟩

/-- Embeds the reply branch of proactive_talk: length validation, user-turn
append and truncation, important-question capture and write, the
list-reminders short circuit with its single write and early return, else the
direct text-generation reply followed by the common tail. -/
def reply_branch (c : Collab) (user_name : String) (medicine_reminders : List Reminder)
    (voice : VoiceData) (imp0 : List ImpEntry) (s : String) (now : Time)
    (last_question : Option String) (last_question_is_category : Bool) : TalkResult :=
  if s.length > MAX_MESSAGE_LENGTH then
    ⟨Except.error "Reply exceeds maximum length of 1000 characters", []⟩
  else
    let history1 := truncateHistory (voice.history ++ [⟨"user", s, now.iso, "response", false, none, none⟩])
    let impPair : List ImpEntry × List StoreWrite :=
      if truthyOptStr last_question && last_question_is_category then
        let qts :=
          if history1.length ≥ 2 then
            ((history1.get? (history1.length - 2)).map Turn.timestamp).getD now.iso
          else now.iso
        let entries := imp0 ++ [⟨last_question.getD "", s, qts, now.iso⟩]
        (entries, [StoreWrite.imp entries])
      else (imp0, [])
    if is_list_reminders_request s then
      let response_content := format_reminder_list medicine_reminders
      let history2 := history1 ++ [⟨"assistant", response_content, now.iso, "response", false, none, none⟩]
      ⟨Except.ok response_content,
        impPair.2 ++ [StoreWrite.voice
          ⟨history2, voice.asked_reminders, voice.category_usage, voice.subcategory_usage⟩]⟩
    else
      match c.reply_gen with
      | Except.error _ => ⟨Except.error "text generation failed", impPair.2⟩
      | Except.ok response_content =>
        finish_decision history1 voice.asked_reminders voice.category_usage
          voice.subcategory_usage response_content "response" false none none now impPair.2

/-- Embeds the no-reply branch of proactive_talk: the medication-due scan,
then the refill scan, then the category question, each followed by the common
tail; a failed category text generation propagates to the outer handler with
no store write. -/
def no_reply_branch (c : Collab) (user_name : String) (medicine_reminders : List Reminder)
    (voice : VoiceData) (now : Time) : TalkResult :=
  match medication_scan c user_name now medicine_reminders voice.asked_reminders with
  | (some q, asked1) =>
    finish_decision voice.history asked1 voice.category_usage voice.subcategory_usage
      q "question" false none none now []
  | (none, asked1) =>
    match refill_scan c user_name now medicine_reminders asked1 with
    | (some q, asked2) =>
      finish_decision voice.history asked2 voice.category_usage voice.subcategory_usage
        q "question" false none none now []
    | (none, asked2) =>
      let choice := category_select c voice.category_usage voice.subcategory_usage
      match c.question_gen with
      | Except.error _ => ⟨Except.error "text generation failed", []⟩
      | Except.ok q =>
        finish_decision voice.history asked2 choice.category_usage choice.subcategory_usage
          q "question" true (some choice.category) (some choice.subcategory) now []

/-- Embeds the proactive_talk endpoint of endpoints/chat.py from the point
where the per-user state has been fetched: the last-question inspection of
the current log, then the reply branch when the reply is truthy after
stripping, else the no-reply decision chain. -/
def proactive_talk (c : Collab) (user_name : String) (medicine_reminders : List Reminder)
    (voice : VoiceData) (imp0 : List ImpEntry) (reply : Option String) (now : Time) :
    TalkResult :=
  let lastOpt := voice.history.getLast?
  let last_question : Option String :=
    match lastOpt with
    | some t => if t.role = "assistant" ∧ t.turn_type = "question" then some t.content else none
    | none => none
  let last_question_is_category : Bool :=
    match lastOpt with
    | some t => if t.role = "assistant" ∧ t.turn_type = "question" then t.is_category_question else false
    | none => false
  match reply with
  | some s =>
    if pyStripTruthy s then
      reply_branch c user_name medicine_reminders voice imp0 s now
        last_question last_question_is_category
    else no_reply_branch c user_name medicine_reminders voice now
  | none => no_reply_branch c user_name medicine_reminders voice now

/-! ## Spec-side definitions for the refinement claims -/

/-- Written from the words of claim C6 and spec section 4.2: the weekday
indices obtained by mapping each recurrence tag through its case-insensitive
first three letters. -/
def mappedWeekdays (recurrence : List String) : List Nat :=
  recurrence.filterMap (fun t => dictGet weekday_map (strLower (strTake t 3)))

/-- The expansion exactly as claim C6 states it: the start date alone for an
empty recurrence set, the start date alone when no tag is recognized, and
otherwise exactly the calendar days of the inclusive range whose weekday lies
in the mapped set — with no further fallback. -/
def spec_expansion (recurrence : List String) (start_date end_date : Nat) : List Nat :=
  if recurrence.isEmpty then [start_date]
  else if (mappedWeekdays recurrence).isEmpty then [start_date]
  else (rangeDates start_date end_date).filter
    (fun d => decide (weekday d ∈ mappedWeekdays recurrence))

/-- The expansion as amended: identical to spec_expansion except that a
recognized recurrence whose filtered walk is empty also falls back to the
start date, which is what the final line of get_reminder_dates does. -/
def spec_expansion_amended (recurrence : List String) (start_date end_date : Nat) : List Nat :=
  if recurrence.isEmpty then [start_date]
  else if (mappedWeekdays recurrence).isEmpty then [start_date]
  else
    let days := (rangeDates start_date end_date).filter
      (fun d => decide (weekday d ∈ mappedWeekdays recurrence))
    if days.isEmpty then [start_date] else days

/-- Written from the words of claim C9: the count a usage mapping assigns to a
label (missing label means zero). -/
def usageCount (usage_counts : List (String × Nat)) (label : String) : Nat :=
  (dictGet usage_counts label).getD 0

/-- Written from the words of claim C9: the maximum count across all known
labels, or 1 when the mapping is empty. -/
def maxKnownCount (usage_counts : List (String × Nat)) : Nat :=
  if usage_counts.isEmpty then 1 else (usage_counts.map Prod.snd).foldl max 0

/-- The weight formula exactly as claim C9 states it. -/
def spec_weight (usage_counts : List (String × Nat)) (base : ℚ) (label : String) : ℚ :=
  base / (1 + (usageCount usage_counts label : ℚ) / ((max 1 (maxKnownCount usage_counts) : Nat) : ℚ))

/-! ## Claim C6 -/

theorem get_reminder_dates_ne_nil (recurring : List String) (s e : Nat) :
    get_reminder_dates recurring s e ≠ [] := by
  unfold get_reminder_dates
  dsimp only
  split
  · simp
  · split
    · simp
    · split
      · simp
      · rename_i h
        intro hc
        rw [hc] at h
        simp at h

theorem contains_eq_decide_mem (l : List Nat) (x : Nat) :
    l.contains x = decide (x ∈ l) := by
  induction l with
  | nil => simp
  | cons a t ih => by_cases h : x = a <;> simp [List.contains, h]

/-- Claim C6 is false on the code: for the recurrence tag mon with start and
end date both equal to day 6 (a Tuesday), the recognized-tag case of the claim
demands exactly the matching calendar days, which is the empty list, but
get_reminder_dates returns the start date because of its final fallback
line. -/
theorem c6_counterexample :
    (mappedWeekdays ["mon"]).isEmpty = false ∧
    spec_expansion ["mon"] 6 6 = [] ∧
    get_reminder_dates ["mon"] 6 6 = [6] ∧
    get_reminder_dates ["mon"] 6 6 ≠ spec_expansion ["mon"] 6 6 := by
  refine ⟨by decide, by decide, by decide, by decide⟩

/-- Claim C6 as amended: the expansion of get_reminder_dates is the start date
for an empty recurrence, the start date when no tag is recognized, the
filtered inclusive calendar range when tags are recognized and at least one
day matches, and the start date again when the recognized filter matches no
day in the range. -/
theorem c6_amended_expansion (recurring : List String) (start_date end_date : Nat) :
    get_reminder_dates recurring start_date end_date =
      spec_expansion_amended recurring start_date end_date := by
  unfold get_reminder_dates spec_expansion_amended mappedWeekdays
  simp only [contains_eq_decide_mem]

/-- Closed instance of the amended C6 theorem at a concrete recurring spec. -/
theorem c6_amended_expansion_witness :
    get_reminder_dates ["mon", "wed"] 5 18 = spec_expansion_amended ["mon", "wed"] 5 18 :=
  c6_amended_expansion ["mon", "wed"] 5 18

/-! ## Claim C7 -/

/-- A reminder spec carrying neither the start_from_today flag nor a
reminder_date. -/
def c7_reminder : MedicineReminderReq :=
  ⟨"Aspirin", some "08:00", none, none, none, none, [], false⟩

/-- Claim C7 is false on the code: a reminder with neither start_from_today
nor reminder_date is not rejected; the start date silently defaults to the
current date (here day 700000) and one occurrence is produced for
persistence. -/
theorem c7_counterexample :
    c7_reminder.start_from_today = false ∧
    c7_reminder.reminder_date = none ∧
    add_reminder_occurrence_dates 700000 c7_reminder = Except.ok [700000] := by
  refine ⟨rfl, rfl, by decide⟩

/-- Claim C7 as amended: when a reminder carries neither the
start_from_today flag nor a reminder_date (and no explicit end date), the
request is accepted, the start date silently defaults to the caller-supplied
current date with the default four-week end date, and at least one occurrence
is persisted. -/
theorem c7_amended_default_today (current_date : Nat) (r : MedicineReminderReq)
    (h1 : r.start_from_today = false) (h2 : r.reminder_date = none)
    (h3 : r.end_date = none) :
    add_reminder_occurrence_dates current_date r =
      Except.ok (get_reminder_dates r.recurring current_date (current_date + 28)) ∧
    get_reminder_dates r.recurring current_date (current_date + 28) ≠ [] := by
  constructor
  · unfold add_reminder_occurrence_dates determine_start_date determine_end_date
    rw [h1, h2, h3]
    simp
  · exact get_reminder_dates_ne_nil r.recurring current_date (current_date + 28)

/-- Closed instance of the amended C7 theorem at the concrete reminder. -/
theorem c7_amended_default_today_witness :
    add_reminder_occurrence_dates 700000 c7_reminder =
      Except.ok (get_reminder_dates c7_reminder.recurring 700000 (700000 + 28)) ∧
    get_reminder_dates c7_reminder.recurring 700000 (700000 + 28) ≠ [] :=
  c7_amended_default_today 700000 c7_reminder rfl rfl rfl

/-! ## Claim C9 -/

theorem foldl_max_eq_zero (l : List Nat) :
    ∀ a, l.foldl max a = 0 → a = 0 ∧ ∀ x ∈ l, x = 0 := by
  induction l with
  | nil => intro a h; simpa using h
  | cons c cs ih =>
    intro a h
    have h2 := ih (max a c) h
    have hm : max a c = 0 := h2.1
    have ha : a = 0 := (Nat.max_eq_zero_iff.mp hm).1
    have hc : c = 0 := (Nat.max_eq_zero_iff.mp hm).2
    refine ⟨ha, ?_⟩
    intro x hx
    rcases List.mem_cons.mp hx with h3 | h3
    · rw [h3]; exact hc
    · exact h2.2 x h3

theorem le_foldl_max (l : List Nat) : ∀ a, a ≤ l.foldl max a := by
  induction l with
  | nil => intro a; simp
  | cons c cs ih =>
    intro a
    calc a ≤ max a c := Nat.le_max_left a c
    _ ≤ cs.foldl max (max a c) := ih (max a c)

theorem mem_le_foldl_max (l : List Nat) (x : Nat) :
    ∀ a, x ∈ l → x ≤ l.foldl max a := by
  induction l with
  | nil => intro a hx; cases hx
  | cons c cs ih =>
    intro a hx
    show x ≤ cs.foldl max (max a c)
    rcases List.mem_cons.mp hx with h | h
    · subst h
      calc x ≤ max a x := Nat.le_max_right a x
      _ ≤ cs.foldl max (max a x) := le_foldl_max cs (max a x)
    · exact ih (max a c) h

/-- A candidate label never counts above the claim-side denominator. -/
theorem usageCount_le_max (usage_counts : List (String × Nat)) (label : String) :
    usageCount usage_counts label ≤ max 1 (maxKnownCount usage_counts) := by
  unfold usageCount maxKnownCount
  match h : dictGet usage_counts label with
  | none => simp
  | some v =>
    have hv : v ∈ usage_counts.map Prod.snd := dictGet_mem_values usage_counts label v h
    have hne : usage_counts.isEmpty = false := by
      cases usage_counts with
      | nil => simp [dictGet] at h
      | cons p rest => simp
    simp only [hne, Bool.false_eq_true, if_false, Option.getD_some]
    calc v ≤ (usage_counts.map Prod.snd).foldl max 0 := mem_le_foldl_max _ v 0 hv
    _ ≤ max 1 ((usage_counts.map Prod.snd).foldl max 0) := Nat.le_max_right _ _

/-- The weights of one call equal the claim formula pointwise. -/
theorem calculate_weights_eq_spec (items : List String) (usage_counts : List (String × Nat))
    (base : ℚ) :
    calculate_weights items usage_counts base = items.map (spec_weight usage_counts base) := by
  unfold calculate_weights spec_weight usageCount maxKnownCount
  by_cases he : usage_counts.isEmpty = true
  · simp only [he, if_true, if_pos]
    have : (1 : Nat) ≠ 0 := one_ne_zero
    simp [this]
  · simp only [he, Bool.false_eq_true, if_false]
    by_cases hz : (usage_counts.map Prod.snd).foldl max 0 = 0
    · simp only [hz, if_pos rfl]
      apply List.map_congr_left
      intro item _
      have hcount : ((dictGet usage_counts item).getD 0 : Nat) = 0 := by
        match h : dictGet usage_counts item with
        | none => simp
        | some v =>
          have hv := dictGet_mem_values usage_counts item v h
          have := (foldl_max_eq_zero (usage_counts.map Prod.snd) 0 hz).2 v hv
          simpa [this]
      rw [hcount]
      norm_num
    · simp only [hz, if_neg hz]
      apply List.map_congr_left
      intro item _
      have hmax : max 1 ((usage_counts.map Prod.snd).foldl max 0) =
          (usage_counts.map Prod.snd).foldl max 0 := by
        omega
      rw [hmax]

/-- Claim C9 is false as stated: the weights are claimed to lie in the open
interval above half the base, but with usage mapping A maps to 1 the single
candidate A receives exactly base divided by two (here 1/2 with base 1), the
closed endpoint. -/
theorem c9_counterexample :
    calculate_weights ["A"] [("A", 1)] 1 = [1 / 2] ∧
    ¬ ((1 : ℚ) / 2 < 1 / 2) := by
  constructor
  · show [ (1 : ℚ) / (1 + ((1 : Nat) : ℚ) / ((1 : Nat) : ℚ)) ] = [1 / 2]
    norm_num
  · simp

/-- Claim C9 as amended: the computed weights follow the claim formula, lie in
the closed interval from half the base to the base (the lower endpoint is
attained, which is the amendment), decrease strictly as a candidate count
rises, and degrade to the uniform base list on the one computational error
reachable with natural-number counts (a non-empty mapping whose counts are all
zero, where the source divides by zero). -/
theorem c9_amended_weights :
    (∀ (items : List String) (usage_counts : List (String × Nat)) (base : ℚ),
      calculate_weights items usage_counts base = items.map (spec_weight usage_counts base)) ∧
    (∀ (items : List String) (usage_counts : List (String × Nat)) (base w : ℚ),
      0 < base → w ∈ calculate_weights items usage_counts base →
      base / 2 ≤ w ∧ w ≤ base) ∧
    (∀ (usage_counts : List (String × Nat)) (base : ℚ) (l1 l2 : String),
      0 < base → usageCount usage_counts l1 < usageCount usage_counts l2 →
      usageCount usage_counts l2 ≤ max 1 (maxKnownCount usage_counts) →
      spec_weight usage_counts base l2 < spec_weight usage_counts base l1) ∧
    (∀ (items : List String) (usage_counts : List (String × Nat)) (base : ℚ),
      usage_counts ≠ [] → (usage_counts.map Prod.snd).foldl max 0 = 0 →
      calculate_weights items usage_counts base = items.map (fun _ => base)) := by
  have hM : ∀ usage_counts : List (String × Nat),
      (0 : ℚ) < ((max 1 (maxKnownCount usage_counts) : Nat) : ℚ) := by
    intro usage_counts
    have : (1 : Nat) ≤ max 1 (maxKnownCount usage_counts) := Nat.le_max_left _ _
    exact_mod_cast Nat.lt_of_lt_of_le Nat.zero_lt_one this
  have hbounds : ∀ (usage_counts : List (String × Nat)) (base : ℚ) (label : String),
      0 < base → base / 2 ≤ spec_weight usage_counts base label ∧
        spec_weight usage_counts base label ≤ base := by
    intro usage_counts base label hb
    unfold spec_weight
    set M : ℚ := ((max 1 (maxKnownCount usage_counts) : Nat) : ℚ) with hMdef
    set cq : ℚ := ((usageCount usage_counts label : Nat) : ℚ) with hcdef
    have hMpos : (0 : ℚ) < M := hM usage_counts
    have hcnonneg : (0 : ℚ) ≤ cq := by positivity
    have hcle : cq ≤ M := by
      rw [hcdef, hMdef]
      exact_mod_cast usageCount_le_max usage_counts label
    have hratio0 : (0 : ℚ) ≤ cq / M := by positivity
    have hratio1 : cq / M ≤ 1 := (div_le_one hMpos).mpr hcle
    constructor
    · have h2 : 1 + cq / M ≤ 2 := by linarith
      calc base / 2 ≤ base / (1 + cq / M) := by
            apply div_le_div_of_nonneg_left (le_of_lt hb) (by linarith) h2
      _ = base / (1 + cq / M) := rfl
    · have h1 : 1 ≤ 1 + cq / M := by linarith
      calc base / (1 + cq / M) ≤ base / 1 := by
            apply div_le_div_of_nonneg_left (le_of_lt hb) (by norm_num) h1
      _ = base := by norm_num
  refine ⟨calculate_weights_eq_spec, ?_, ?_, ?_⟩
  · intro items usage_counts base w hb hw
    rw [calculate_weights_eq_spec] at hw
    rcases List.mem_map.mp hw with ⟨label, _, hlab⟩
    rw [← hlab]
    exact hbounds usage_counts base label hb
  · intro usage_counts base l1 l2 hb hlt hle
    unfold spec_weight
    set M : ℚ := ((max 1 (maxKnownCount usage_counts) : Nat) : ℚ) with hMdef
    have hMpos : (0 : ℚ) < M := hM usage_counts
    have hql : ((usageCount usage_counts l1 : Nat) : ℚ) < ((usageCount usage_counts l2 : Nat) : ℚ) := by
      exact_mod_cast hlt
    have hd : ((usageCount usage_counts l1 : Nat) : ℚ) / M <
        ((usageCount usage_counts l2 : Nat) : ℚ) / M :=
      div_lt_div_of_pos_right hql hMpos
    have h1 : (0 : ℚ) < 1 + ((usageCount usage_counts l1 : Nat) : ℚ) / M := by positivity
    apply div_lt_div_of_pos_left hb h1
    linarith
  · intro items usage_counts base hne hz
    unfold calculate_weights
    have he : usage_counts.isEmpty = false := by
      cases usage_counts with
      | nil => exact absurd rfl hne
      | cons p rest => simp
    simp [he, hz]

/-- Closed instance of the amended C9 theorem: the formula, both closed-end
bounds (the lower endpoint attained at the fully used label B), the strict
monotonicity between counts 0 and 2, and the zero-count degraded case, all at
concrete inputs. -/
theorem c9_amended_weights_witness :
    (calculate_weights ["A", "B"] [("A", 1), ("B", 2)] 1 =
      ["A", "B"].map (spec_weight [("A", 1), ("B", 2)] 1)) ∧
    ((1 : ℚ) / 2 ≤ (calculate_weights ["A", "B"] [("A", 1), ("B", 2)] 1).getD 1 0 ∧
      (calculate_weights ["A", "B"] [("A", 1), ("B", 2)] 1).getD 1 0 ≤ 1) ∧
    (spec_weight [("A", 1), ("B", 2)] 1 "B" < spec_weight [("A", 1), ("B", 2)] 1 "A") ∧
    (calculate_weights ["A", "B"] [("A", 0)] 1 = ["A", "B"].map (fun _ => 1)) := by
  have h := c9_amended_weights
  refine ⟨h.1 ["A", "B"] [("A", 1), ("B", 2)] 1, ?_, ?_, ?_⟩
  · have hm : (calculate_weights ["A", "B"] [("A", 1), ("B", 2)] 1).getD 1 0 ∈
        calculate_weights ["A", "B"] [("A", 1), ("B", 2)] 1 := by
      rw [h.1 ["A", "B"] [("A", 1), ("B", 2)] 1]
      simp [List.getD]
    exact h.2.1 ["A", "B"] [("A", 1), ("B", 2)] 1 _ (by norm_num) hm
  · exact h.2.2.1 [("A", 1), ("B", 2)] 1 "A" "B" (by norm_num) (by decide) (by decide)
  · exact h.2.2.2 ["A", "B"] [("A", 0)] 1 (by decide) (by decide)

/-! ## Claim C8 -/

/-- Written from the words of claim C8: the entry date of a response entry,
defined when the entry carries a truthy timestamp and a truthy value and the
timestamp parses. -/
def entryDate (r : RespEntry) : Option Nat :=
  match r.timestamp, r.response with
  | some ts, some resp =>
    if strIsEmpty ts ∨ strIsEmpty resp then none else parseDateIso ts
  | _, _ => none

/-- Written from the claim: an entry counts toward the 7-day denominator when
zero to six days old. -/
def entryInWindow (today : Nat) (r : RespEntry) : Bool :=
  match entryDate r with
  | some d => decide (0 ≤ (today : Int) - (d : Int) ∧ (today : Int) - (d : Int) < 7)
  | none => false

/-- An entry whose value signals adherence. -/
def entryIsYes (r : RespEntry) : Bool :=
  match r.response with
  | some resp => decide (resp = "yes")
  | none => false

/-- An entry that marks its reminder taken today: dated today with a yes
value. -/
def entryTakenToday (today : Nat) (r : RespEntry) : Bool :=
  match entryDate r with
  | some d => decide (d = today) && entryIsYes r
  | none => false

/-- The 7-day denominator of the claim: the number of in-window entries over
all reminders. -/
def denom7 (reminders : List (String × AdhReminder))
    (responses : List (String × List RespEntry)) (today : Nat) : Nat :=
  (reminders.map (fun p => ((dictGet responses p.1).getD []).countP (entryInWindow today))).sum

/-- The numerator of the claim: in-window entries that additionally carry the
value yes. -/
def numer7 (reminders : List (String × AdhReminder))
    (responses : List (String × List RespEntry)) (today : Nat) : Nat :=
  (reminders.map (fun p => ((dictGet responses p.1).getD []).countP
    (fun r => entryInWindow today r && entryIsYes r))).sum

/-- The missed-dose count of the claim: reminders with no yes response dated
today. -/
def missedDecl (reminders : List (String × AdhReminder))
    (responses : List (String × List RespEntry)) (today : Nat) : Nat :=
  reminders.countP (fun p => !(((dictGet responses p.1).getD []).any (entryTakenToday today)))

theorem adherenceEntryStep_eq (today : Nat) (st : Nat × Nat × Bool) (r : RespEntry) :
    adherenceEntryStep today st r =
      (st.1 + (if entryInWindow today r then 1 else 0),
       st.2.1 + (if entryInWindow today r && entryIsYes r then 1 else 0),
       st.2.2 || entryTakenToday today r) := by
  rcases r with ⟨ots, ore⟩
  rcases ots with _ | ts <;> rcases ore with _ | resp
  · simp [adherenceEntryStep, entryInWindow, entryIsYes, entryTakenToday, entryDate]
  · simp [adherenceEntryStep, entryInWindow, entryIsYes, entryTakenToday, entryDate]
  · simp [adherenceEntryStep, entryInWindow, entryIsYes, entryTakenToday, entryDate]
  · by_cases hemp : strIsEmpty ts = true ∨ strIsEmpty resp = true
    · simp [adherenceEntryStep, entryInWindow, entryIsYes, entryTakenToday, entryDate, hemp]
    · rcases hpd : parseDateIso ts with _ | d
      · simp [adherenceEntryStep, entryInWindow, entryIsYes, entryTakenToday, entryDate,
          hemp, hpd]
      · simp only [adherenceEntryStep, entryInWindow, entryIsYes, entryTakenToday, entryDate,
          hemp, if_false, hpd]
        by_cases hw : 0 ≤ (today : Int) - (d : Int) ∧ (today : Int) - (d : Int) < 7
        · by_cases hy : resp = "yes" <;> simp [hw, hy] <;> split_ifs <;> simp
        · by_cases hy : resp = "yes" <;> simp [hw, hy] <;> split_ifs <;> simp

theorem adherence_entries_fold (today : Nat) (l : List RespEntry) :
    ∀ t0 k0 : Nat, ∀ b0 : Bool,
      l.foldl (adherenceEntryStep today) (t0, k0, b0) =
        (t0 + l.countP (entryInWindow today),
         k0 + l.countP (fun r => entryInWindow today r && entryIsYes r),
         b0 || l.any (entryTakenToday today)) := by
  induction l with
  | nil => intro t0 k0 b0; simp
  | cons r rest ih =>
    intro t0 k0 b0
    show rest.foldl (adherenceEntryStep today) (adherenceEntryStep today (t0, k0, b0) r) = _
    rw [adherenceEntryStep_eq]
    rw [ih]
    refine Prod.ext ?_ (Prod.ext ?_ ?_)
    · simp only [List.countP_cons]
      by_cases h : entryInWindow today r = true <;> simp [h] <;> omega
    · simp only [List.countP_cons]
      by_cases h : (entryInWindow today r && entryIsYes r) = true <;> simp [h] <;> omega
    · simp only [List.any_cons]
      by_cases h : entryTakenToday today r = true <;> simp [h]

theorem adherenceReminderStep_fields (responses : List (String × List RespEntry))
    (today : Nat) (acc : AdhAcc) (p : String × AdhReminder) :
    ((adherenceReminderStep responses today acc p).total =
      acc.total + ((dictGet responses p.1).getD []).countP (entryInWindow today)) ∧
    ((adherenceReminderStep responses today acc p).taken =
      acc.taken + ((dictGet responses p.1).getD []).countP
        (fun r => entryInWindow today r && entryIsYes r)) ∧
    ((adherenceReminderStep responses today acc p).missed_doses =
      (if ((dictGet responses p.1).getD []).any (entryTakenToday today) then acc.missed_doses
       else acc.missed_doses + 1)) ∧
    ((adherenceReminderStep responses today acc p).all_taken_today =
      (acc.all_taken_today && ((dictGet responses p.1).getD []).any (entryTakenToday today))) := by
  unfold adherenceReminderStep
  simp only [adherence_entries_fold]
  by_cases hA : ((dictGet responses p.1).getD []).any (entryTakenToday today) = true
  · simp [hA]
  · simp [hA]

theorem adherence_reminders_fold (responses : List (String × List RespEntry)) (today : Nat)
    (rs : List (String × AdhReminder)) :
    ∀ acc : AdhAcc,
      ((rs.foldl (adherenceReminderStep responses today) acc).total =
        acc.total + denom7 rs responses today) ∧
      ((rs.foldl (adherenceReminderStep responses today) acc).taken =
        acc.taken + numer7 rs responses today) ∧
      ((rs.foldl (adherenceReminderStep responses today) acc).missed_doses =
        acc.missed_doses + missedDecl rs responses today) ∧
      ((rs.foldl (adherenceReminderStep responses today) acc).all_taken_today =
        (acc.all_taken_today && decide (missedDecl rs responses today = 0))) := by
  induction rs with
  | nil => intro acc; simp [denom7, numer7, missedDecl]
  | cons p rest ih =>
    intro acc
    simp only [List.foldl_cons]
    obtain ⟨ht, hk, hm, ha⟩ := ih (adherenceReminderStep responses today acc p)
    obtain ⟨f1, f2, f3, f4⟩ := adherenceReminderStep_fields responses today acc p
    refine ⟨?_, ?_, ?_, ?_⟩
    · rw [ht, f1]
      simp [denom7, Nat.add_assoc]
    · rw [hk, f2]
      simp [numer7, Nat.add_assoc]
    · rw [hm, f3]
      by_cases hA : ((dictGet responses p.1).getD []).any (entryTakenToday today) = true
      · simp [missedDecl, hA, List.countP_cons]
      · simp only [missedDecl, List.countP_cons] at *
        simp [hA]
        omega
    · rw [ha, f4]
      simp only [missedDecl, List.countP_cons]
      by_cases hA : ((dictGet responses p.1).getD []).any (entryTakenToday today) = true
      all_goals
        by_cases hz : List.countP
          (fun q => !((dictGet responses q.1).getD []).any (entryTakenToday today)) rest = 0
      · simp [hA, hz]
      · simp [hA, hz]
      · simp [hA, hz]
      · simp [hA, hz]

/-- Claim C8: the adherence summary counts an entry toward the 7-day
denominator exactly when its date is zero to six days before today, toward
the numerator when additionally its value is yes; the rate is the rounded
percentage, zero when the denominator is zero; missed_doses counts the
reminders with no yes response dated today; and all_taken_today holds exactly
when that count is zero.  The computation is a pure function of the reminder
set, response log and reference date: its type performs no store write, so no
stored state is mutated. -/
theorem c8_adherence_summary (reminders : List (String × AdhReminder))
    (responses : List (String × List RespEntry)) (today : Nat) :
    (get_medication_adherence_summary reminders responses today).total_last7 =
      denom7 reminders responses today ∧
    (get_medication_adherence_summary reminders responses today).taken_count =
      numer7 reminders responses today ∧
    (get_medication_adherence_summary reminders responses today).adherence_rate =
      (if denom7 reminders responses today = 0 then 0
       else round2 (100 * (numer7 reminders responses today : ℚ) /
         (denom7 reminders responses today : ℚ))) ∧
    (get_medication_adherence_summary reminders responses today).missed_doses =
      missedDecl reminders responses today ∧
    ((get_medication_adherence_summary reminders responses today).all_taken_today =
      decide ((get_medication_adherence_summary reminders responses today).missed_doses = 0)) := by
  have h := adherence_reminders_fold responses today reminders ⟨true, 0, 0, 0, none⟩
  rcases h with ⟨ht, hk, hm, ha⟩
  unfold get_medication_adherence_summary
  simp only at ht hk hm ha
  rw [Nat.zero_add] at ht hk hm
  refine ⟨?_, ?_, ?_, ?_, ?_⟩
  · simpa using ht
  · simpa using hk
  · simp only [ht, hk]
    by_cases hz : denom7 reminders responses today = 0
    · simp [hz]
    · have harith : (numer7 reminders responses today : ℚ) /
          (denom7 reminders responses today : ℚ) * 100 =
          100 * (numer7 reminders responses today : ℚ) /
          (denom7 reminders responses today : ℚ) := by
        ring
      simp [hz, harith]
  · simpa using hm
  · simp only [ht, hk, hm, ha]
    simp

/-- Closed instance of the C8 theorem at a concrete one-reminder log. -/
theorem c8_adherence_summary_witness :
    (get_medication_adherence_summary
        [("r1", ⟨some "08:00", some "Aspirin"⟩)]
        [("r1", [⟨some "2026-10-12T08:05:00", some "yes"⟩])]
        (daysFromCivil 2026 10 12)).total_last7 =
      denom7 [("r1", ⟨some "08:00", some "Aspirin"⟩)]
        [("r1", [⟨some "2026-10-12T08:05:00", some "yes"⟩])] (daysFromCivil 2026 10 12) ∧
    (get_medication_adherence_summary
        [("r1", ⟨some "08:00", some "Aspirin"⟩)]
        [("r1", [⟨some "2026-10-12T08:05:00", some "yes"⟩])]
        (daysFromCivil 2026 10 12)).taken_count =
      numer7 [("r1", ⟨some "08:00", some "Aspirin"⟩)]
        [("r1", [⟨some "2026-10-12T08:05:00", some "yes"⟩])] (daysFromCivil 2026 10 12) ∧
    (get_medication_adherence_summary
        [("r1", ⟨some "08:00", some "Aspirin"⟩)]
        [("r1", [⟨some "2026-10-12T08:05:00", some "yes"⟩])]
        (daysFromCivil 2026 10 12)).adherence_rate =
      (if denom7 [("r1", ⟨some "08:00", some "Aspirin"⟩)]
          [("r1", [⟨some "2026-10-12T08:05:00", some "yes"⟩])] (daysFromCivil 2026 10 12) = 0
       then 0
       else round2 (100 * (numer7 [("r1", ⟨some "08:00", some "Aspirin"⟩)]
          [("r1", [⟨some "2026-10-12T08:05:00", some "yes"⟩])] (daysFromCivil 2026 10 12) : ℚ) /
          (denom7 [("r1", ⟨some "08:00", some "Aspirin"⟩)]
          [("r1", [⟨some "2026-10-12T08:05:00", some "yes"⟩])] (daysFromCivil 2026 10 12) : ℚ))) ∧
    (get_medication_adherence_summary
        [("r1", ⟨some "08:00", some "Aspirin"⟩)]
        [("r1", [⟨some "2026-10-12T08:05:00", some "yes"⟩])]
        (daysFromCivil 2026 10 12)).missed_doses =
      missedDecl [("r1", ⟨some "08:00", some "Aspirin"⟩)]
        [("r1", [⟨some "2026-10-12T08:05:00", some "yes"⟩])] (daysFromCivil 2026 10 12) ∧
    ((get_medication_adherence_summary
        [("r1", ⟨some "08:00", some "Aspirin"⟩)]
        [("r1", [⟨some "2026-10-12T08:05:00", some "yes"⟩])]
        (daysFromCivil 2026 10 12)).all_taken_today =
      decide ((get_medication_adherence_summary
        [("r1", ⟨some "08:00", some "Aspirin"⟩)]
        [("r1", [⟨some "2026-10-12T08:05:00", some "yes"⟩])]
        (daysFromCivil 2026 10 12)).missed_doses = 0)) :=
  c8_adherence_summary [("r1", ⟨some "08:00", some "Aspirin"⟩)]
    [("r1", [⟨some "2026-10-12T08:05:00", some "yes"⟩])] (daysFromCivil 2026 10 12)

/-! ## Shared concrete fixtures and helper lemmas for the engine claims -/

/-- A collaborator whose text generations succeed with fixed strings, whose
random choices take the first candidate and whose string hash is constant. -/
def exCollab : Collab :=
  ⟨Except.ok "Nice!", Except.ok "CatQ", fun _ _ => 0, fun _ _ => 0, fun _ => "0"⟩

/-- A collaborator whose category-question text generation raises. -/
def failCollab : Collab :=
  ⟨Except.ok "Nice!", Except.error (), fun _ _ => 0, fun _ _ => 0, fun _ => "0"⟩

/-- A fixed current moment: 08:00 on 2026-10-12. -/
def exNow : Time :=
  ⟨8, 0, "2026-10-12", daysFromCivil 2026 10 12, "2026-10-12T08:00:00+05:30"⟩

/-- A reminder exactly due at the fixed moment. -/
def exRem : Reminder := ⟨some "Aspirin", some "08:00", some "r1", none⟩

/-- A second reminder exactly due at the same minute. -/
def exRem2 : Reminder := ⟨some "Tylenol", some "08:00", some "r2", none⟩

/-- An empty voice-history blob. -/
def voice0 : VoiceData := ⟨[], [], [], []⟩

/-- An asked state whose within-hour flag was set on the previous day. -/
def askedStale : List (String × AskedState) :=
  [("r1", ⟨true, false, false, some "2026-10-11"⟩)]

/-- A voice blob carrying the stale asked state. -/
def voiceStale : VoiceData := ⟨[], askedStale, [], []⟩

/-- A reply of 1001 whitespace characters. -/
def spaces1001 : String := String.mk (List.replicate 1001 ' ')

/-- A reply of 1001 letters. -/
def chars1001 : String := String.mk (List.replicate 1001 'a')

theorem medication_scan_none (c : Collab) (u : String) (now : Time) (rems : List Reminder) :
    ∀ asked, (medication_scan c u now rems asked).1 = none →
      (medication_scan c u now rems asked).2 = asked := by
  induction rems with
  | nil => intro asked _; rfl
  | cons r rest ih =>
    intro asked h
    simp only [medication_scan] at h ⊢
    split_ifs at h ⊢ <;>
      first
        | exact ih asked h
        | exact absurd h (by simp)
        | rfl

theorem medication_scan_mark (c : Collab) (u : String) (now : Time) (rems : List Reminder) :
    ∀ asked, (medication_scan c u now rems asked).2 = asked ∨
      ∃ rid st, (medication_scan c u now rems asked).2 = dictSet asked rid st := by
  induction rems with
  | nil => intro asked; exact Or.inl rfl
  | cons r rest ih =>
    intro asked
    simp only [medication_scan]
    split_ifs <;>
      first
        | exact ih asked
        | exact Or.inr ⟨_, _, rfl⟩

theorem refill_scan_none (c : Collab) (u : String) (now : Time) (rems : List Reminder) :
    ∀ asked, (refill_scan c u now rems asked).1 = none →
      (refill_scan c u now rems asked).2 = asked := by
  induction rems with
  | nil => intro asked _; rfl
  | cons r rest ih =>
    intro asked h
    simp only [refill_scan] at h ⊢
    split_ifs at h ⊢ <;>
      first
        | exact ih asked h
        | exact absurd h (by simp)
        | rfl

theorem refill_scan_mark (c : Collab) (u : String) (now : Time) (rems : List Reminder) :
    ∀ asked, (refill_scan c u now rems asked).2 = asked ∨
      ∃ rid st, (refill_scan c u now rems asked).2 = dictSet asked rid st := by
  induction rems with
  | nil => intro asked; exact Or.inl rfl
  | cons r rest ih =>
    intro asked
    simp only [refill_scan]
    split_ifs <;>
      first
        | exact ih asked
        | exact Or.inr ⟨_, _, rfl⟩

/-- At most one key of the asked-state dict reads differently between two
states. -/
def changesAtMostOne (a b : List (String × AskedState)) : Prop :=
  ∃ oid : Option String, ∀ id, dictGet b id ≠ dictGet a id → oid = some id

theorem changesAtMostOne_of_shape (a b : List (String × AskedState))
    (h : b = a ∨ ∃ rid st, b = dictSet a rid st) : changesAtMostOne a b := by
  rcases h with h | ⟨rid, st, h⟩
  · subst h
    exact ⟨none, fun id hid => absurd rfl hid⟩
  · refine ⟨some rid, fun id hid => ?_⟩
    by_cases hidr : id = rid
    · rw [hidr]
    · exfalso
      apply hid
      rw [h, dictGet_dictSet]
      simp [hidr]

/-- Common shape of every successful no-reply decision: one assistant turn is
produced, the voice blob is written twice — once with the pre-turn history and
once with the turn appended and truncated — and the asked state is either
unchanged or updated at a single key. -/
theorem no_reply_shape (c : Collab) (u : String) (rems : List Reminder) (voice : VoiceData)
    (imp0 : List ImpEntry) (now : Time) (s : String) (h : c.question_gen = Except.ok s) :
    ∃ (t : Turn) (asked : List (String × AskedState)) (cu su : List (String × Nat)),
      proactive_talk c u rems voice imp0 none now =
        ⟨Except.ok t.content,
         [StoreWrite.voice ⟨voice.history, asked, cu, su⟩,
          StoreWrite.voice ⟨truncateHistory (voice.history ++ [t]), asked, cu, su⟩]⟩ ∧
      t.role = "assistant" ∧
      (asked = voice.asked_reminders ∨
        ∃ rid st, asked = dictSet voice.asked_reminders rid st) := by
  have hshape := medication_scan_mark c u now rems voice.asked_reminders
  have hnone := medication_scan_none c u now rems voice.asked_reminders
  show ∃ t asked cu su, no_reply_branch c u rems voice now = _ ∧ _
  unfold no_reply_branch
  rcases hmed : medication_scan c u now rems voice.asked_reminders with ⟨mq, asked1⟩
  rcases mq with _ | q
  all_goals dsimp only
  · have hasked1 : asked1 = voice.asked_reminders := by
      have h2 := hnone (by rw [hmed])
      rw [hmed] at h2
      exact h2
    have hrshape := refill_scan_mark c u now rems asked1
    have hrnone := refill_scan_none c u now rems asked1
    rcases href : refill_scan c u now rems asked1 with ⟨rq, asked2⟩
    rcases rq with _ | q2
    all_goals dsimp only
    · have hasked2 : asked2 = asked1 := by
        have h2 := hrnone (by rw [href])
        rw [href] at h2
        exact h2
      rw [h]
      refine ⟨⟨"assistant", s, now.iso, "question", true,
        some (category_select c voice.category_usage voice.subcategory_usage).category,
        some (category_select c voice.category_usage voice.subcategory_usage).subcategory⟩,
        asked2,
        (category_select c voice.category_usage voice.subcategory_usage).category_usage,
        (category_select c voice.category_usage voice.subcategory_usage).subcategory_usage,
        ?_, rfl, ?_⟩
      · unfold finish_decision
        simp
      · rw [hasked2, hasked1]
        exact Or.inl rfl
    · refine ⟨⟨"assistant", q2, now.iso, "question", false, none, none⟩,
        asked2, voice.category_usage, voice.subcategory_usage, ?_, rfl, ?_⟩
      · unfold finish_decision
        simp
      · rcases hrshape with h2 | ⟨rid, st, h2⟩
        · rw [href] at h2
          simp only at h2
          rw [h2, hasked1]
          exact Or.inl rfl
        · rw [href] at h2
          simp only at h2
          rw [hasked1] at h2
          exact Or.inr ⟨rid, st, h2⟩
  · refine ⟨⟨"assistant", q, now.iso, "question", false, none, none⟩,
      asked1, voice.category_usage, voice.subcategory_usage, ?_, rfl, ?_⟩
    · unfold finish_decision
      simp
    · rcases hshape with h2 | ⟨rid, st, h2⟩
      · rw [hmed] at h2
        simp only at h2
        exact Or.inl h2
      · rw [hmed] at h2
        simp only at h2
        exact Or.inr ⟨rid, st, h2⟩

/-- Reduction of a truthy-reply call to the reply branch, with the
last-question inspection spelled out. -/
theorem proactive_talk_reply (c : Collab) (u : String) (rems : List Reminder)
    (voice : VoiceData) (imp0 : List ImpEntry) (s : String) (now : Time)
    (h1 : pyStripTruthy s = true) :
    proactive_talk c u rems voice imp0 (some s) now =
      reply_branch c u rems voice imp0 s now
        (match voice.history.getLast? with
         | some t => if t.role = "assistant" ∧ t.turn_type = "question" then some t.content else none
         | none => none)
        (match voice.history.getLast? with
         | some t => if t.role = "assistant" ∧ t.turn_type = "question" then t.is_category_question else false
         | none => false) := by
  unfold proactive_talk
  dsimp only
  simp [h1]

/-- The reply branch, on a non-list reply within the length bound whose
generation succeeds, produces the generated reply and leaves the asked state
and both usage counters untouched in every voice write. -/
theorem reply_branch_no_flag_change (c : Collab) (u : String) (rems : List Reminder)
    (voice : VoiceData) (imp0 : List ImpEntry) (s r : String) (now : Time)
    (lq : Option String) (lqc : Bool)
    (h2 : ¬ s.length > MAX_MESSAGE_LENGTH) (h3 : is_list_reminders_request s = false)
    (h4 : c.reply_gen = Except.ok r) :
    (reply_branch c u rems voice imp0 s now lq lqc).result = Except.ok r ∧
    ∀ vd : VoiceData, StoreWrite.voice vd ∈ (reply_branch c u rems voice imp0 s now lq lqc).writes →
      vd.asked_reminders = voice.asked_reminders ∧
      vd.category_usage = voice.category_usage ∧
      vd.subcategory_usage = voice.subcategory_usage := by
  unfold reply_branch
  rw [if_neg h2]
  by_cases hq : (truthyOptStr lq && lqc) = true
  · simp only [hq, if_true, h3, Bool.false_eq_true, if_false, h4]
    unfold finish_decision
    refine ⟨rfl, ?_⟩
    intro vd hvd
    simp at hvd
    rcases hvd with h | h
    · subst h
      exact ⟨rfl, rfl, rfl⟩
    · subst h
      exact ⟨rfl, rfl, rfl⟩
  · simp only [hq, Bool.false_eq_true, if_false, h3, h4]
    unfold finish_decision
    refine ⟨rfl, ?_⟩
    intro vd hvd
    simp at hvd
    rcases hvd with h | h
    · subst h
      exact ⟨rfl, rfl, rfl⟩
    · subst h
      exact ⟨rfl, rfl, rfl⟩

/-- Claim C1 is false on the code: with a non-blank, non-list reply present
and a reminder exactly due and never asked about, the call still produces the
direct text-generation reply and never evaluates the medication or refill
checks — the asked state and usage counters stay empty in every write, and no
medication or refill question is emitted. -/
theorem c1_counterexample :
    pyStripTruthy "hello there" = true ∧
    is_list_reminders_request "hello there" = false ∧
    is_exact_reminder_time (exRem.time.getD "") exNow 1 = true ∧
    (askedEntry voice0.asked_reminders (reminderIdOf exCollab exRem)).within_hour_asked = false ∧
    (proactive_talk exCollab "Asha" [exRem] voice0 [] (some "hello there") exNow).result =
      Except.ok "Nice!" ∧
    ((proactive_talk exCollab "Asha" [exRem] voice0 [] (some "hello there") exNow).writes.all
      (fun w =>
        match w with
        | StoreWrite.voice vd =>
          decide (vd.asked_reminders = ([] : List (String × AskedState))) &&
            decide (vd.category_usage = ([] : List (String × Nat)))
        | StoreWrite.imp _ => true)) = true := by
  refine ⟨by decide, by decide, by decide, by decide, by decide, by decide⟩

/-- Claim C1 as amended: when the trigger carries non-blank reply text within
the length bound that is not a list-reminders request, the decision is always
the direct text-generation reply; the medication-due and refill checks are not
evaluated on this path, so the asked state and the usage counters are
unchanged in every persisted write. -/
theorem c1_amended_reply_bypasses_checks (c : Collab) (u : String) (rems : List Reminder)
    (voice : VoiceData) (imp0 : List ImpEntry) (s r : String) (now : Time)
    (h1 : pyStripTruthy s = true) (h2 : ¬ s.length > MAX_MESSAGE_LENGTH)
    (h3 : is_list_reminders_request s = false) (h4 : c.reply_gen = Except.ok r) :
    (proactive_talk c u rems voice imp0 (some s) now).result = Except.ok r ∧
    ∀ vd : VoiceData,
      StoreWrite.voice vd ∈ (proactive_talk c u rems voice imp0 (some s) now).writes →
      vd.asked_reminders = voice.asked_reminders ∧
      vd.category_usage = voice.category_usage ∧
      vd.subcategory_usage = voice.subcategory_usage := by
  rw [proactive_talk_reply c u rems voice imp0 s now h1]
  exact reply_branch_no_flag_change c u rems voice imp0 s r now _ _ h2 h3 h4

/-- Closed instance of the amended C1 theorem. -/
theorem c1_amended_reply_bypasses_checks_witness :
    (proactive_talk exCollab "Asha" [exRem] voice0 [] (some "hello there") exNow).result =
      Except.ok "Nice!" ∧
    ∀ vd : VoiceData,
      StoreWrite.voice vd ∈
        (proactive_talk exCollab "Asha" [exRem] voice0 [] (some "hello there") exNow).writes →
      vd.asked_reminders = voice0.asked_reminders ∧
      vd.category_usage = voice0.category_usage ∧
      vd.subcategory_usage = voice0.subcategory_usage :=
  c1_amended_reply_bypasses_checks exCollab "Asha" [exRem] voice0 [] "hello there" "Nice!"
    exNow (by decide) (by decide) (by decide) rfl

/-- Claim C2 is right and the code is wrong.  Failing input: the asked state
of reminder r1 carries within_hour_asked true stamped with the previous date
2026-10-11, the current date is 2026-10-12, and r1 is exactly due now.  The
spec invariant demands that flags under a stale date be treated as false, so
the medication question should be asked again; the code consults the bare
flag (the computed asked_today is dead) and instead emits a category question,
leaving the stale asked state unchanged. -/
theorem c2_stale_flag_bug :
    (askedEntry askedStale "r1").within_hour_asked = true ∧
    (askedEntry askedStale "r1").date = some "2026-10-11" ∧
    exNow.dateIso = "2026-10-12" ∧
    is_exact_reminder_time (exRem.time.getD "") exNow 1 = true ∧
    (proactive_talk exCollab "Asha" [exRem] voiceStale [] none exNow).result =
      Except.ok "CatQ" ∧
    (proactive_talk exCollab "Asha" [exRem] voiceStale [] none exNow).writes.get? 1 =
      some (StoreWrite.voice
        ⟨[⟨"assistant", "CatQ", "2026-10-12T08:00:00+05:30", "question", true,
            some "Health and Medicine", some "Medication intake"⟩],
          askedStale, [("Health and Medicine", 1)], [("Medication intake", 1)]⟩) := by
  refine ⟨by decide, by decide, by decide, by decide, by decide, by decide⟩

/-- Claim C3: a no-reply trigger whose category generation succeeds emits
exactly one assistant turn, writes the blob twice with the same bookkeeping,
and changes the asked state at no more than one reminder id; in particular,
with two reminders both exactly due now, only the first is asked about and
marked, and the asked entry of the second reads unchanged. -/
theorem c3_one_question_per_trigger :
    (∀ (c : Collab) (u : String) (rems : List Reminder) (voice : VoiceData)
        (imp0 : List ImpEntry) (now : Time) (s : String),
      c.question_gen = Except.ok s →
      ∃ (t : Turn) (asked : List (String × AskedState)) (cu su : List (String × Nat)),
        proactive_talk c u rems voice imp0 none now =
          ⟨Except.ok t.content,
           [StoreWrite.voice ⟨voice.history, asked, cu, su⟩,
            StoreWrite.voice ⟨truncateHistory (voice.history ++ [t]), asked, cu, su⟩]⟩ ∧
        t.role = "assistant" ∧ changesAtMostOne voice.asked_reminders asked) ∧
    (∀ (c : Collab) (u : String) (r1 r2 : Reminder) (voice : VoiceData)
        (imp0 : List ImpEntry) (now : Time),
      truthyOptStr r1.time = true →
      is_within_one_hour (r1.time.getD "") now 60 = true →
      is_exact_reminder_time (r1.time.getD "") now 1 = true →
      (askedEntry voice.asked_reminders (reminderIdOf c r1)).within_hour_asked = false →
      reminderIdOf c r2 ≠ reminderIdOf c r1 →
      (proactive_talk c u [r1, r2] voice imp0 none now).result =
        Except.ok (medication_due_question u r1) ∧
      (∀ vd : VoiceData,
        StoreWrite.voice vd ∈ (proactive_talk c u [r1, r2] voice imp0 none now).writes →
        vd.asked_reminders =
          mark_within_hour voice.asked_reminders (reminderIdOf c r1) now.dateIso) ∧
      (askedEntry (mark_within_hour voice.asked_reminders (reminderIdOf c r1) now.dateIso)
        (reminderIdOf c r1)).within_hour_asked = true ∧
      (askedEntry (mark_within_hour voice.asked_reminders (reminderIdOf c r1) now.dateIso)
        (reminderIdOf c r1)).date = some now.dateIso ∧
      dictGet (mark_within_hour voice.asked_reminders (reminderIdOf c r1) now.dateIso)
        (reminderIdOf c r2) = dictGet voice.asked_reminders (reminderIdOf c r2)) := by
  constructor
  · intro c u rems voice imp0 now s h
    obtain ⟨t, asked, cu, su, heq, hrole, hsh⟩ := no_reply_shape c u rems voice imp0 now s h
    exact ⟨t, asked, cu, su, heq, hrole, changesAtMostOne_of_shape _ _ hsh⟩
  · intro c u r1 r2 voice imp0 now h1 h2 h3 h4 h5
    have hscan : medication_scan c u now [r1, r2] voice.asked_reminders =
        (some (medication_due_question u r1),
         mark_within_hour voice.asked_reminders (reminderIdOf c r1) now.dateIso) := by
      simp only [medication_scan]
      rw [h1]
      simp only [Bool.not_true, Bool.false_eq_true, if_false]
      rw [h2, h4, h3]
      simp
    have hpt : proactive_talk c u [r1, r2] voice imp0 none now =
        finish_decision voice.history
          (mark_within_hour voice.asked_reminders (reminderIdOf c r1) now.dateIso)
          voice.category_usage voice.subcategory_usage
          (medication_due_question u r1) "question" false none none now [] := by
      show no_reply_branch c u [r1, r2] voice now = _
      unfold no_reply_branch
      rw [hscan]
    refine ⟨?_, ?_, ?_, ?_, ?_⟩
    · rw [hpt]
      rfl
    · intro vd hvd
      rw [hpt] at hvd
      unfold finish_decision at hvd
      simp at hvd
      rcases hvd with h | h
      · subst h
        rfl
      · subst h
        rfl
    · unfold mark_within_hour askedEntry
      rw [dictGet_dictSet]
      simp
    · unfold mark_within_hour askedEntry
      rw [dictGet_dictSet]
      simp
    · unfold mark_within_hour
      rw [dictGet_dictSet]
      simp [h5]

/-- Closed instance of the C3 theorem: the general shape at the empty reminder
list and the two-due-reminders consequence at the fixed moment. -/
theorem c3_one_question_per_trigger_witness :
    (∃ (t : Turn) (asked : List (String × AskedState)) (cu su : List (String × Nat)),
      proactive_talk exCollab "Asha" [] voice0 [] none exNow =
        ⟨Except.ok t.content,
         [StoreWrite.voice ⟨voice0.history, asked, cu, su⟩,
          StoreWrite.voice ⟨truncateHistory (voice0.history ++ [t]), asked, cu, su⟩]⟩ ∧
      t.role = "assistant" ∧ changesAtMostOne voice0.asked_reminders asked) ∧
    ((proactive_talk exCollab "Asha" [exRem, exRem2] voice0 [] none exNow).result =
      Except.ok (medication_due_question "Asha" exRem) ∧
    (∀ vd : VoiceData,
      StoreWrite.voice vd ∈
        (proactive_talk exCollab "Asha" [exRem, exRem2] voice0 [] none exNow).writes →
      vd.asked_reminders =
        mark_within_hour voice0.asked_reminders (reminderIdOf exCollab exRem) exNow.dateIso) ∧
    (askedEntry (mark_within_hour voice0.asked_reminders (reminderIdOf exCollab exRem) exNow.dateIso)
      (reminderIdOf exCollab exRem)).within_hour_asked = true ∧
    (askedEntry (mark_within_hour voice0.asked_reminders (reminderIdOf exCollab exRem) exNow.dateIso)
      (reminderIdOf exCollab exRem)).date = some exNow.dateIso ∧
    dictGet (mark_within_hour voice0.asked_reminders (reminderIdOf exCollab exRem) exNow.dateIso)
      (reminderIdOf exCollab exRem2) = dictGet voice0.asked_reminders (reminderIdOf exCollab exRem2)) :=
  ⟨c3_one_question_per_trigger.1 exCollab "Asha" [] voice0 [] exNow "CatQ" rfl,
   c3_one_question_per_trigger.2 exCollab "Asha" exRem exRem2 voice0 [] exNow
     (by decide) (by decide) (by decide) (by decide) (by decide)⟩

/-- Claim C4 is false on the code: a single decision performs two voice-blob
writes, not one; the first write already carries the mutated asked flags but
still the old history without the newly emitted turn, so that partial state
is observable between the writes. -/
theorem c4_counterexample :
    (proactive_talk exCollab "Asha" [exRem] voice0 [] none exNow).writes.length = 2 ∧
    ¬ (proactive_talk exCollab "Asha" [exRem] voice0 [] none exNow).writes.length = 1 ∧
    (proactive_talk exCollab "Asha" [exRem] voice0 [] none exNow).writes.get? 0 =
      some (StoreWrite.voice
        ⟨[], [("r1", ⟨true, false, false, some "2026-10-12"⟩)], [], []⟩) ∧
    (proactive_talk exCollab "Asha" [exRem] voice0 [] none exNow).writes.get? 1 =
      some (StoreWrite.voice
        ⟨[⟨"assistant", "Hey Asha, it\u2019s time for your Aspirin. Have you taken it yet?",
            "2026-10-12T08:00:00+05:30", "question", false, none, none⟩],
          [("r1", ⟨true, false, false, some "2026-10-12"⟩)], [], []⟩) := by
  refine ⟨by decide, by decide, by decide, by decide⟩

/-- Claim C4 as amended: a successful no-reply decision persists the state in
two sequential writes, not one — an intermediate write carrying the final
asked state and counters with the pre-turn history, then the final write that
adds the appended, truncated turn; the last write carries the complete
mutated state. -/
theorem c4_amended_two_phase_persist (c : Collab) (u : String) (rems : List Reminder)
    (voice : VoiceData) (imp0 : List ImpEntry) (now : Time) (s : String)
    (h : c.question_gen = Except.ok s) :
    ∃ (t : Turn) (vd1 : VoiceData),
      (proactive_talk c u rems voice imp0 none now).writes =
        [StoreWrite.voice vd1,
         StoreWrite.voice ⟨truncateHistory (vd1.history ++ [t]), vd1.asked_reminders,
           vd1.category_usage, vd1.subcategory_usage⟩] ∧
      vd1.history = voice.history ∧
      (proactive_talk c u rems voice imp0 none now).result = Except.ok t.content := by
  obtain ⟨t, asked, cu, su, heq, _, _⟩ := no_reply_shape c u rems voice imp0 now s h
  refine ⟨t, ⟨voice.history, asked, cu, su⟩, ?_, rfl, ?_⟩
  · rw [heq]
  · rw [heq]

/-- Closed instance of the amended C4 theorem. -/
theorem c4_amended_two_phase_persist_witness :
    ∃ (t : Turn) (vd1 : VoiceData),
      (proactive_talk exCollab "Asha" [exRem] voice0 [] none exNow).writes =
        [StoreWrite.voice vd1,
         StoreWrite.voice ⟨truncateHistory (vd1.history ++ [t]), vd1.asked_reminders,
           vd1.category_usage, vd1.subcategory_usage⟩] ∧
      vd1.history = voice0.history ∧
      (proactive_talk exCollab "Asha" [exRem] voice0 [] none exNow).result = Except.ok t.content :=
  c4_amended_two_phase_persist exCollab "Asha" [exRem] voice0 [] exNow "CatQ" rfl

/-- Claim C5 is false on the code: when the category-question text generation
fails, the engine does not catch the failure and complete with a degraded
text — the whole call aborts with an error and performs no store write at
all, so the incremented counters and the appended turn are lost. -/
theorem c5_counterexample :
    failCollab.question_gen = Except.error () ∧
    proactive_talk failCollab "Asha" [] voice0 [] none exNow =
      ⟨Except.error "text generation failed", []⟩ := by
  refine ⟨rfl, by decide⟩

/-- Claim C5 as amended: a failure of the text-generation collaborator in the
category branch is not caught inside the decision — it propagates, the call
ends in an error, and no bookkeeping (counters, flags or turn) is persisted:
the write trace is empty. -/
theorem c5_amended_failure_aborts (c : Collab) (u : String) (rems : List Reminder)
    (voice : VoiceData) (imp0 : List ImpEntry) (now : Time) (e : Unit)
    (h1 : (medication_scan c u now rems voice.asked_reminders).1 = none)
    (h2 : (refill_scan c u now rems (medication_scan c u now rems voice.asked_reminders).2).1 = none)
    (h3 : c.question_gen = Except.error e) :
    proactive_talk c u rems voice imp0 none now =
      ⟨Except.error "text generation failed", []⟩ := by
  show no_reply_branch c u rems voice now = _
  unfold no_reply_branch
  rcases hmed : medication_scan c u now rems voice.asked_reminders with ⟨mq, asked1⟩
  rw [hmed] at h1 h2
  simp only at h1 h2
  subst h1
  dsimp only
  rcases href : refill_scan c u now rems asked1 with ⟨rq, asked2⟩
  rw [href] at h2
  simp only at h2
  subst h2
  dsimp only
  rw [h3]

/-- Closed instance of the amended C5 theorem. -/
theorem c5_amended_failure_aborts_witness :
    proactive_talk failCollab "Asha" [] voice0 [] none exNow =
      ⟨Except.error "text generation failed", []⟩ :=
  c5_amended_failure_aborts failCollab "Asha" [] voice0 [] exNow () rfl rfl rfl

/-- Claim C10 is false as stated: a reply of 1001 whitespace characters is
longer than the 1000-character limit, yet the call does not fail — the
truthiness test on the stripped reply routes it down the no-reply branch,
which emits a category question and performs two store writes. -/
theorem c10_counterexample :
    spaces1001.length = 1001 ∧
    pyStripTruthy spaces1001 = false ∧
    (proactive_talk exCollab "Asha" [] voice0 [] (some spaces1001) exNow).result =
      Except.ok "CatQ" ∧
    (proactive_talk exCollab "Asha" [] voice0 [] (some spaces1001) exNow).writes.length = 2 := by
  have hs : pyStripTruthy spaces1001 = false := by decide
  have hpt : proactive_talk exCollab "Asha" [] voice0 [] (some spaces1001) exNow =
      no_reply_branch exCollab "Asha" [] voice0 exNow := by
    unfold proactive_talk
    dsimp only
    simp [hs]
  refine ⟨by decide, hs, ?_, ?_⟩
  · rw [hpt]
    decide
  · rw [hpt]
    decide

/-- Claim C10 as amended: for a reply that is non-blank after stripping and
longer than the 1000-character limit, the call fails with the length
validation error before any state mutation — the write trace is empty, so the
conversation log, asked flags, usage counters and important-question entries
are untouched. -/
theorem c10_amended_length_check (c : Collab) (u : String) (rems : List Reminder)
    (voice : VoiceData) (imp0 : List ImpEntry) (s : String) (now : Time)
    (h1 : pyStripTruthy s = true) (h2 : s.length > MAX_MESSAGE_LENGTH) :
    proactive_talk c u rems voice imp0 (some s) now =
      ⟨Except.error "Reply exceeds maximum length of 1000 characters", []⟩ := by
  rw [proactive_talk_reply c u rems voice imp0 s now h1]
  unfold reply_branch
  rw [if_pos h2]

/-- Closed instance of the amended C10 theorem at a 1001-letter reply. -/
theorem c10_amended_length_check_witness :
    proactive_talk exCollab "Asha" [] voice0 [] (some chars1001) exNow =
      ⟨Except.error "Reply exceeds maximum length of 1000 characters", []⟩ :=
  c10_amended_length_check exCollab "Asha" [] voice0 [] chars1001 exNow (by decide) (by decide)

end Zupki
